import Mathlib

/-!
Verification development for the browser-side task session controller of the
`ai_agent_for_browser` repository (the richer client variant in `web/app.js`).

The JavaScript controller is shallow-embedded as pure Lean functions over an
explicit controller state:

* JavaScript values read from event payloads are modelled per field as
  `Option String` (respectively `Option Nat` for `duration_ms`), where `none`
  stands for an absent or falsy field — mirroring how the code coalesces
  falsy values via `data.field || `.  Numeric fields that the code only ever
  interpolates into strings (`step`) are modelled by their string rendering.
* `JSON.parse` of the raw server-sent event data is modelled by a `RawData`
  argument: `invalid` stands for event data that is not valid JSON, on which
  `JSON.parse` throws inside the listener; `nullEnvelope` stands for the
  valid JSON text `null`, on which the subsequent `payload.data` property
  access throws a `TypeError`; `parsed p` stands for any other successfully
  parsed JSON value, whose `payload.data ||` chain and field accesses never
  throw (non-object values yield all-absent fields).
* `localStorage` is modelled as a function `String → Option String`.
* The mutable `eventSource` variable together with every `EventSource` ever
  constructed is modelled as a history list `subs` plus an index `cur` of the
  subscription the variable currently references; `EventSource.close` marks
  the referenced subscription closed (idempotently, as in the DOM API).
* `Number.prototype.toFixed 1` applied to `ms / 1000` is modelled as exact
  decimal rounding (half away from zero) of `ms / 100` tenths; the claims
  never exercise binary floating-point tie behaviour.
-/

namespace BrowserAgent

def enPairs : List (String × String) := [
  ("title", "Browser Agent MVP"),
  ("hint", "Enter a multi-step task and watch the browser."),
  ("settings_title", "Settings"),
  ("label_theme", "Theme"),
  ("theme_light", "Light"),
  ("theme_dark", "Dark"),
  ("label_search_engine", "Search engine"),
  ("label_provider", "LLM provider"),
  ("label_model", "Model"),
  ("label_safe_mode", "Safe mode"),
  ("label_browser_only", "Browser-only"),
  ("tooltip_safe_mode", "Safe: isolated .browser-data profile, no logins. Unsafe: uses your browser profile (set UNSAFE_BROWSER_USER_DATA_DIR in .env, browser must be closed). Risk of profile corruption."),
  ("tooltip_browser_only", "When enabled, the agent acts only via the browser. When disabled, it can answer directly in the console if no explicit browser task is given."),
  ("tab_agent", "Agent"),
  ("tab_models", "Models"),
  ("button_run", "Run"),
  ("button_confirm", "Confirm / Continue"),
  ("button_stop", "Stop"),
  ("status_idle", "Idle"),
  ("status_starting", "Starting task..."),
  ("status_wait_confirm", "Waiting for confirmation"),
  ("status_wait_user", "Waiting for user input"),
  ("status_prefix", "Status:"),
  ("status_running", "running"),
  ("status_waiting_confirm", "waiting_confirm"),
  ("status_waiting_user", "waiting_user"),
  ("status_done", "done"),
  ("status_stopped", "stopped"),
  ("status_error", "error"),
  ("status_queued", "queued"),
  ("prompt_placeholder", "Example: Open wikipedia.org, search for Ada Lovelace, summarize 3 facts."),
  ("log_confirm", "CONFIRM REQUIRED"),
  ("log_user_input", "USER INPUT NEEDED"),
  ("log_result", "RESULT"),
  ("log_event_error", "Event stream error or closed."),
  ("log_failed_start", "Failed to start"),
  ("alert_enter_task", "Enter a task prompt."),
  ("label_user_reply", "User reply"),
  ("hint_user_reply", "Type your reply and click Confirm / Continue."),
  ("user_reply_placeholder", "Type your reply here."),
  ("alert_enter_reply", "Enter a reply for the agent."),
  ("action_navigate", "navigating"),
  ("action_click", "clicking"),
  ("action_type", "typing"),
  ("action_extract", "analyzing"),
  ("action_snapshot", "scanning"),
  ("action_scroll", "scrolling"),
  ("action_wait", "waiting"),
  ("action_back", "back"),
  ("action_forward", "forward"),
  ("action_ask_user", "asking"),
  ("action_finish", "finishing"),
  ("action_stop_task", "stopping"),
  ("action_take_screenshot", "screenshot"),
  ("action_save_trace", "tracing"),
  ("action_think", "thinking"),
  ("action_access", "blocked"),
  ("action_loop_guard", "stuck"),
  ("action_user_input", "reply"),
  ("action_tokens", "tokens"),
  ("action_guard", "rerouting")]

def enTable (key : String) : Option String :=
  enPairs.lookup key

def ruPairs : List (String × String) := [
  ("title", "Browser Agent MVP"),
  ("hint", "\u0412\u0432\u0435\u0434\u0438\u0442\u0435 \u0437\u0430\u0434\u0430\u0447\u0443 \u0438 \u043d\u0430\u0431\u043b\u044e\u0434\u0430\u0439\u0442\u0435 \u0437\u0430 \u0431\u0440\u0430\u0443\u0437\u0435\u0440\u043e\u043c."),
  ("settings_title", "\u041d\u0430\u0441\u0442\u0440\u043e\u0439\u043a\u0438"),
  ("label_theme", "\u0422\u0435\u043c\u0430"),
  ("theme_light", "\u0421\u0432\u0435\u0442\u043b\u0430\u044f"),
  ("theme_dark", "\u0422\u0435\u043c\u043d\u0430\u044f"),
  ("label_search_engine", "\u041f\u043e\u0438\u0441\u043a\u043e\u0432\u0438\u043a"),
  ("label_provider", "\u041f\u0440\u043e\u0432\u0430\u0439\u0434\u0435\u0440 LLM"),
  ("label_model", "\u041c\u043e\u0434\u0435\u043b\u044c"),
  ("label_safe_mode", "\u0411\u0435\u0437\u043e\u043f\u0430\u0441\u043d\u0430\u044f \u0440\u0430\u0431\u043e\u0442\u0430"),
  ("label_browser_only", "\u0422\u043e\u043b\u044c\u043a\u043e \u0431\u0440\u0430\u0443\u0437\u0435\u0440"),
  ("tooltip_safe_mode", "\u0412\u043a\u043b: \u0438\u0437\u043e\u043b\u0438\u0440\u043e\u0432\u0430\u043d\u043d\u044b\u0439 \u043f\u0440\u043e\u0444\u0438\u043b\u044c .browser-data, \u0432\u0445\u043e\u0434\u044b \u043d\u0435 \u0438\u0441\u043f\u043e\u043b\u044c\u0437\u0443\u044e\u0442\u0441\u044f. \u0412\u044b\u043a\u043b: \u043f\u0440\u043e\u0444\u0438\u043b\u044c \u0431\u0440\u0430\u0443\u0437\u0435\u0440\u0430 (\u0443\u043a\u0430\u0436\u0438\u0442\u0435 \u043f\u0443\u0442\u044c \u0432 .env: UNSAFE_BROWSER_USER_DATA_DIR, \u0431\u0440\u0430\u0443\u0437\u0435\u0440 \u0434\u043e\u043b\u0436\u0435\u043d \u0431\u044b\u0442\u044c \u0437\u0430\u043a\u0440\u044b\u0442). \u0415\u0441\u0442\u044c \u0440\u0438\u0441\u043a \u043f\u043e\u0432\u0440\u0435\u0434\u0438\u0442\u044c \u043f\u0440\u043e\u0444\u0438\u043b\u044c."),
  ("tooltip_browser_only", "\u041f\u0440\u0438 \u0432\u043a\u043b\u044e\u0447\u0435\u043d\u043d\u043e\u043c \u0440\u0435\u0436\u0438\u043c\u0435 \u0430\u0433\u0435\u043d\u0442 \u0432\u044b\u043f\u043e\u043b\u043d\u044f\u0435\u0442 \u0437\u0430\u0434\u0430\u0447\u0438 \u0442\u043e\u043b\u044c\u043a\u043e \u0447\u0435\u0440\u0435\u0437 \u0431\u0440\u0430\u0443\u0437\u0435\u0440. \u041f\u0440\u0438 \u0432\u044b\u043a\u043b\u044e\u0447\u0435\u043d\u043d\u043e\u043c \u2014 \u043c\u043e\u0436\u0435\u0442 \u043e\u0442\u0432\u0435\u0447\u0430\u0442\u044c \u043f\u0440\u044f\u043c\u043e \u0432 \u043a\u043e\u043d\u0441\u043e\u043b\u0438 \u043d\u0438\u0436\u0435, \u0435\u0441\u043b\u0438 \u043d\u0435\u0442 \u044f\u0432\u043d\u043e\u0439 \u0437\u0430\u0434\u0430\u0447\u0438."),
  ("tab_agent", "\u0410\u0433\u0435\u043d\u0442"),
  ("tab_models", "\u041c\u043e\u0434\u0435\u043b\u0438"),
  ("button_run", "\u0417\u0430\u043f\u0443\u0441\u0442\u0438\u0442\u044c"),
  ("button_confirm", "\u041f\u043e\u0434\u0442\u0432\u0435\u0440\u0434\u0438\u0442\u044c / \u041f\u0440\u043e\u0434\u043e\u043b\u0436\u0438\u0442\u044c"),
  ("button_stop", "\u041e\u0441\u0442\u0430\u043d\u043e\u0432\u0438\u0442\u044c"),
  ("status_idle", "\u041e\u0436\u0438\u0434\u0430\u043d\u0438\u0435"),
  ("status_starting", "\u0417\u0430\u043f\u0443\u0441\u043a \u0437\u0430\u0434\u0430\u0447\u0438..."),
  ("status_wait_confirm", "\u041e\u0436\u0438\u0434\u0430\u043d\u0438\u0435 \u043f\u043e\u0434\u0442\u0432\u0435\u0440\u0436\u0434\u0435\u043d\u0438\u044f"),
  ("status_wait_user", "\u041e\u0436\u0438\u0434\u0430\u043d\u0438\u0435 \u0432\u0432\u043e\u0434\u0430"),
  ("status_prefix", "\u0421\u0442\u0430\u0442\u0443\u0441:"),
  ("status_running", "\u0432 \u0440\u0430\u0431\u043e\u0442\u0435"),
  ("status_waiting_confirm", "\u043e\u0436\u0438\u0434\u0430\u0435\u0442 \u043f\u043e\u0434\u0442\u0432\u0435\u0440\u0436\u0434\u0435\u043d\u0438\u044f"),
  ("status_waiting_user", "\u043e\u0436\u0438\u0434\u0430\u0435\u0442 \u0432\u0432\u043e\u0434\u0430"),
  ("status_done", "\u0433\u043e\u0442\u043e\u0432\u043e"),
  ("status_stopped", "\u043e\u0441\u0442\u0430\u043d\u043e\u0432\u043b\u0435\u043d\u043e"),
  ("status_error", "\u043e\u0448\u0438\u0431\u043a\u0430"),
  ("status_queued", "\u0432 \u043e\u0447\u0435\u0440\u0435\u0434\u0438"),
  ("prompt_placeholder", "\u041f\u0440\u0438\u043c\u0435\u0440: \u043e\u0442\u043a\u0440\u043e\u0439\u0442\u0435 wikipedia.org, \u043d\u0430\u0439\u0434\u0438\u0442\u0435 Ada Lovelace \u0438 \u043a\u0440\u0430\u0442\u043a\u043e \u043f\u0435\u0440\u0435\u0441\u043a\u0430\u0436\u0438\u0442\u0435 3 \u0444\u0430\u043a\u0442\u0430."),
  ("log_confirm", "\u0422\u0420\u0415\u0411\u0423\u0415\u0422\u0421\u042f \u041f\u041e\u0414\u0422\u0412\u0415\u0420\u0416\u0414\u0415\u041d\u0418\u0415"),
  ("log_user_input", "\u0422\u0420\u0415\u0411\u0423\u0415\u0422\u0421\u042f \u0412\u0412\u041e\u0414"),
  ("log_result", "\u0420\u0415\u0417\u0423\u041b\u042c\u0422\u0410\u0422"),
  ("log_event_error", "\u041e\u0448\u0438\u0431\u043a\u0430 \u043f\u043e\u0442\u043e\u043a\u0430 \u0441\u043e\u0431\u044b\u0442\u0438\u0439 \u0438\u043b\u0438 \u043e\u043d \u0437\u0430\u043a\u0440\u044b\u0442."),
  ("log_failed_start", "\u041d\u0435 \u0443\u0434\u0430\u043b\u043e\u0441\u044c \u0441\u0442\u0430\u0440\u0442\u043e\u0432\u0430\u0442\u044c"),
  ("alert_enter_task", "\u0412\u0432\u0435\u0434\u0438\u0442\u0435 \u0437\u0430\u0434\u0430\u0447\u0443."),
  ("label_user_reply", "\u041e\u0442\u0432\u0435\u0442 \u043f\u043e\u043b\u044c\u0437\u043e\u0432\u0430\u0442\u0435\u043b\u044e"),
  ("hint_user_reply", "\u0412\u0432\u0435\u0434\u0438\u0442\u0435 \u043e\u0442\u0432\u0435\u0442 \u0438 \u043d\u0430\u0436\u043c\u0438\u0442\u0435 Confirm / Continue."),
  ("user_reply_placeholder", "\u0412\u0432\u0435\u0434\u0438\u0442\u0435 \u043e\u0442\u0432\u0435\u0442 \u0437\u0434\u0435\u0441\u044c."),
  ("alert_enter_reply", "\u0412\u0432\u0435\u0434\u0438\u0442\u0435 \u043e\u0442\u0432\u0435\u0442 \u0434\u043b\u044f \u0430\u0433\u0435\u043d\u0442\u0430."),
  ("action_navigate", "\u043f\u0435\u0440\u0435\u0445\u043e\u0436\u0443"),
  ("action_click", "\u043a\u043b\u0438\u043a\u0430\u044e"),
  ("action_type", "\u0432\u0432\u043e\u0436\u0443"),
  ("action_extract", "\u0430\u043d\u0430\u043b\u0438\u0437\u0438\u0440\u0443\u044e"),
  ("action_snapshot", "\u043e\u0441\u043c\u0430\u0442\u0440\u0438\u0432\u0430\u044e"),
  ("action_scroll", "\u043b\u0438\u0441\u0442\u0430\u044e"),
  ("action_wait", "\u0436\u0434\u0443"),
  ("action_back", "\u043d\u0430\u0437\u0430\u0434"),
  ("action_forward", "\u0432\u043f\u0435\u0440\u0451\u0434"),
  ("action_ask_user", "\u0441\u043f\u0440\u0430\u0448\u0438\u0432\u0430\u044e"),
  ("action_finish", "\u0437\u0430\u0432\u0435\u0440\u0448\u0430\u044e"),
  ("action_stop_task", "\u043e\u0441\u0442\u0430\u043d\u0430\u0432\u043b\u0438\u0432\u0430\u044e"),
  ("action_take_screenshot", "\u0441\u043a\u0440\u0438\u043d\u0448\u043e\u0442"),
  ("action_save_trace", "\u0442\u0440\u0430\u0441\u0441\u0438\u0440\u0443\u044e"),
  ("action_think", "\u0434\u0443\u043c\u0430\u044e"),
  ("action_access", "\u043d\u0435\u0442 \u0434\u043e\u0441\u0442\u0443\u043f\u0430"),
  ("action_loop_guard", "\u0437\u0430\u0441\u0442\u0440\u044f\u043b"),
  ("action_user_input", "\u043e\u0442\u0432\u0435\u0442"),
  ("action_tokens", "\u0442\u043e\u043a\u0435\u043d\u044b"),
  ("action_guard", "\u043f\u0435\u0440\u0435\u043d\u0430\u043f\u0440\u0430\u0432\u043b\u044f\u044e")]

def ruTable (key : String) : Option String :=
  ruPairs.lookup key

/-- The `I18N` object of `web/app.js`: a table per language tag. -/
def I18N : String → Option (String → Option String)
  | "en" => some enTable
  | "ru" => some ruTable
  | _ => none

/-- JavaScript truthy-or on a possibly absent string: `a || b` where an absent
or empty string falls through to `b`. -/
def jsOrStr : Option String → String → String
  | some v, b => if v = "" then b else v
  | none, b => b

/-- `t(key)` of `web/app.js`, with the mutable `currentLang` passed
explicitly: `(I18N[lang] && I18N[lang][key]) || I18N.en[key] || key`. -/
def t (lang key : String) : String :=
  jsOrStr ((I18N lang).bind fun tbl => tbl key) (jsOrStr (enTable key) key)

/-- `statusLabel(value)` of `web/app.js`: `map[value] || value`. -/
def statusLabel (lang value : String) : String :=
  let mapped : Option String :=
    match value with
    | "running" => some (t lang "status_running")
    | "waiting_confirm" => some (t lang "status_waiting_confirm")
    | "waiting_user" => some (t lang "status_waiting_user")
    | "done" => some (t lang "status_done")
    | "stopped" => some (t lang "status_stopped")
    | "error" => some (t lang "status_error")
    | "queued" => some (t lang "status_queued")
    | _ => none
  jsOrStr mapped value

/-- The tool-to-label key table inside `actionLabel` of `web/app.js`;
`map[tool] || ''`. -/
def actionKey : String → String
  | "navigate" => "action_navigate"
  | "click" => "action_click"
  | "type" => "action_type"
  | "extract" => "action_extract"
  | "snapshot" => "action_snapshot"
  | "scroll" => "action_scroll"
  | "wait" => "action_wait"
  | "wait_for_network_idle" => "action_wait"
  | "back" => "action_back"
  | "forward" => "action_forward"
  | "ask_user" => "action_ask_user"
  | "finish" => "action_finish"
  | "stop_task" => "action_stop_task"
  | "take_screenshot" => "action_take_screenshot"
  | "save_trace" => "action_save_trace"
  | "none" => "action_think"
  | "access" => "action_access"
  | "loop_guard" => "action_loop_guard"
  | "user_input" => "action_user_input"
  | "tokens" => "action_tokens"
  | "guard" => "action_guard"
  | _ => ""

/-- `actionLabel(tool)` of `web/app.js`: `key ? t(key) : ''`. -/
def actionLabel (lang tool : String) : String :=
  let key := actionKey tool
  if key = "" then "" else t lang key

/-- `formatDuration(ms)` of `web/app.js`.  `none` models an absent or
non-number `duration_ms` (`typeof ms !== 'number' || Number.isNaN(ms)`).
`(ms / 1000).toFixed(1)` is modelled as rounding `ms` to the nearest 100ms. -/
def formatDuration : Option Nat → String
  | none => ""
  | some ms =>
    if 1000 ≤ ms then
      let tenths := (ms * 10 + 500) / 1000
      toString (tenths / 10) ++ "." ++ toString (tenths % 10) ++ "s"
    else
      toString ms ++ "ms"

/-- Whitespace for the purposes of JavaScript `String.prototype.trim`
(restricted to the ASCII whitespace the code can produce). -/
def jsWsp (c : Char) : Bool :=
  c = ' ' || c = '\t' || c = '\n' || c = '\r'

/-- JavaScript `s.trim()`: strip leading and trailing whitespace. -/
def jsTrim (s : String) : String :=
  ⟨((s.data.dropWhile jsWsp).reverse.dropWhile jsWsp).reverse⟩

/-- The parsed JSON envelope `payload.data || ` of a stream event, one
structure over all fields any listener reads; each field is `none` when
absent (or falsy) in the parsed JSON. -/
structure Payload where
  step : Option String := none
  tool : Option String := none
  status : Option String := none
  reason : Option String := none
  duration_ms : Option Nat := none
  error : Option String := none
  summary : Option String := none
  question : Option String := none
  result : Option String := none
deriving Repr, DecidableEq

/-- The display line derived by the `log` listener of `connectEvents`
(`web/app.js`, richer variant): action label, literal tool, status, reason,
parenthesised duration, then ` | error: ...` when present, trimmed. -/
def logLine (lang : String) (p : Payload) : String :=
  let action := actionLabel lang (p.tool.getD "")
  let duration := formatDuration p.duration_ms
  let parts : List String :=
    (if action = "" then [] else [action]) ++
    (match p.tool with | some tool => [tool] | none => []) ++
    (match p.status with | some status => [status] | none => []) ++
    (match p.reason with | some reason => [reason] | none => []) ++
    (if duration = "" then [] else ["(" ++ duration ++ ")"])
  let message := "[" ++ p.step.getD "" ++ "] " ++ String.intercalate " " parts
  let errorText := match p.error with
    | some e => " | error: " ++ e
    | none => ""
  jsTrim (message ++ errorText)

/-- One `EventSource` ever constructed by `connectEvents`: the task it was
opened for and whether `close()` has been called on it. -/
structure Sub where
  task : String
  closed : Bool
deriving Repr, DecidableEq, Inhabited

/-- The controller state of `web/app.js` (richer variant): the visible
UI toggles, the log text, the reply input, the module-level mutable
variables `taskId`, `waitingForUserInput` and `currentLang`, and the
subscription history (`subs` lists every `EventSource` ever created, in
creation order; `cur` is the index the `eventSource` variable currently
references, `none` while it is still `null`). -/
structure St where
  logText : String
  statusText : String
  confirmDisabled : Bool
  stopDisabled : Bool
  runDisabled : Bool
  waitingForUserInput : Bool
  replyHidden : Bool
  replyValue : String
  taskId : Option String
  subs : List Sub
  cur : Option Nat
  lang : String
deriving Repr, DecidableEq

/-- `appendLog(line)` of `web/app.js`. -/
def appendLog (line : String) (st : St) : St :=
  { st with logText := st.logText ++ line ++ "\n" }

/-- `resetUI()` of `web/app.js` (richer variant): clears the log, disables
confirm and stop, enables start, clears the awaiting-reply flag, hides and
clears the reply input, and shows the idle status.  It touches neither
`eventSource` nor `taskId`. -/
def resetUI (st : St) : St :=
  { st with
    logText := ""
    confirmDisabled := true
    stopDisabled := true
    runDisabled := false
    waitingForUserInput := false
    replyHidden := true
    replyValue := ""
    statusText := t st.lang "status_idle" }

/-- Mark the subscription at index `i` closed (used to model
`EventSource.close()`, which is idempotent). -/
def closeAt : List Sub → Nat → List Sub
  | [], _ => []
  | s :: rest, 0 => { s with closed := true } :: rest
  | s :: rest, n + 1 => s :: closeAt rest n

/-- `eventSource.close()` on the currently referenced subscription
(a no-op when `eventSource` is `null`). -/
def closeCur (st : St) : St :=
  match st.cur with
  | none => st
  | some i => { st with subs := closeAt st.subs i }

/-- The connection part of `connectEvents(id)` of `web/app.js`: close the
previously referenced `EventSource` if any, then construct a new one for
task `id` and point the `eventSource` variable at it. -/
def connectEvents (id : String) (st : St) : St :=
  let st1 := closeCur st
  { st1 with subs := st1.subs ++ [⟨id, false⟩], cur := some st1.subs.length }

/-- Number of still-open subscriptions in a history list. -/
def openSubs (l : List Sub) : Nat :=
  (l.filter (fun s => !s.closed)).length

/-- Number of subscriptions ever created that are still open. -/
def openCount (st : St) : Nat :=
  openSubs st.subs

/-- The five named stream event kinds the listeners of `connectEvents`
subscribe to. -/
inductive EventKind
  | log
  | needsConfirmation
  | needsUserInput
  | result
  | status
deriving Repr, DecidableEq

/-- The body of the listener registered for each event kind in
`connectEvents` of `web/app.js` (richer variant), applied to a successfully
parsed payload. -/
def handleEvent (k : EventKind) (p : Payload) (st : St) : St :=
  match k with
  | .log => appendLog (logLine st.lang p) st
  | .needsConfirmation =>
      let st1 := appendLog (t st.lang "log_confirm" ++ ": " ++ p.summary.getD "") st
      { st1 with
        confirmDisabled := false
        stopDisabled := false
        waitingForUserInput := false
        replyHidden := true
        statusText := t st.lang "status_wait_confirm" }
  | .needsUserInput =>
      let st1 := appendLog (t st.lang "log_user_input" ++ ": " ++ p.question.getD "") st
      { st1 with
        confirmDisabled := false
        stopDisabled := false
        waitingForUserInput := true
        replyHidden := false
        statusText := t st.lang "status_wait_user" }
  | .result => appendLog (t st.lang "log_result" ++ ": " ++ p.result.getD "") st
  | .status =>
      let st1 := { st with
        statusText := t st.lang "status_prefix" ++ " " ++ statusLabel st.lang (p.status.getD "") }
      if ["done", "stopped", "error"].contains (p.status.getD "") then
        closeCur { st1 with
          confirmDisabled := true
          stopDisabled := true
          runDisabled := false
          waitingForUserInput := false
          replyHidden := true }
      else st1

/-- The raw `event.data` string of a stream event, classified by how the
first two statements of every listener treat it: `invalid` is data that is
not valid JSON (`JSON.parse` throws); `nullEnvelope` is the valid JSON text
`null` (`JSON.parse` succeeds but the `payload.data` access then throws a
`TypeError`); `parsed p` is any other parsed JSON value — object, array,
number, string or boolean — on which `payload.data || ` and the field
accesses never throw, non-object and falsy values yielding all-absent
fields. -/
inductive RawData
  | invalid
  | nullEnvelope
  | parsed (p : Payload)
deriving Repr, DecidableEq

/-- A listener invocation on raw event data.  Every listener starts with
`const payload = JSON.parse(event.data); const data = payload.data || {};`
— data that is not valid JSON throws at the parse, the valid JSON `null`
throws at the `payload.data` access, and both throws happen before any
state change (`Except.error`); otherwise the listener body runs on the
parsed payload. -/
def handleRaw (k : EventKind) (d : RawData) (st : St) : Except Unit St :=
  match d with
  | .invalid => .error ()
  | .nullEnvelope => .error ()
  | .parsed p => .ok (handleEvent k p st)

/-- Process a sequence of successfully parsed stream events in arrival
order. -/
def processEvents (evs : List (EventKind × Payload)) (st : St) : St :=
  evs.foldl (fun s e => handleEvent e.1 e.2 s) st

/-- The body of `POST /tasks` built by the `runBtn` click handler. -/
structure CreateBody where
  prompt : String
  browser_only : Bool
  search_engine : String
  model : String
  provider : String
  safe_mode : Bool
deriving Repr, DecidableEq

/-- An outbound HTTP request issued by the controller. -/
inductive Request
  | createTask (body : CreateBody)
  | confirm (task : String) (response : Option String)
  | stop (task : String)
deriving Repr, DecidableEq

/-- The backend response to the task-creation request: `ok` carries
`task_id`; `err` carries the parsed `detail` field (`none` when absent or
empty) and the transport status text it falls back to. -/
inductive StartResponse
  | ok (task_id : String)
  | err (detail : Option String) (statusText : String)
deriving Repr, DecidableEq

/-- The form inputs the `runBtn` click handler reads from the page. -/
structure FormInputs where
  promptText : String
  browserOnly : Bool
  searchEngine : String
  model : String
  provider : String
  safeMode : Bool
deriving Repr, DecidableEq

/-- The `runBtn` click handler of `web/app.js` (richer variant).  Returns
the new state, the outbound requests issued, and the user-facing alert shown
if any. -/
def runClick (fi : FormInputs) (resp : StartResponse) (st : St) :
    St × List Request × Option String :=
  let prompt := jsTrim fi.promptText
  if prompt = "" then
    (st, [], some (t st.lang "alert_enter_task"))
  else
    let st1 := resetUI st
    let st2 := { st1 with statusText := t st1.lang "status_starting", runDisabled := true }
    let req := Request.createTask
      { prompt := prompt
        browser_only := fi.browserOnly
        search_engine := fi.searchEngine
        model := fi.model
        provider := fi.provider
        safe_mode := fi.safeMode }
    match resp with
    | .err detail statusText =>
        let st3 := appendLog (t st2.lang "log_failed_start" ++ ": " ++ detail.getD statusText) st2
        ({ st3 with
            statusText := t st3.lang "status_prefix" ++ " " ++ t st3.lang "status_error"
            runDisabled := false },
         [req], none)
    | .ok tid =>
        let st3 := { st2 with taskId := some tid, stopDisabled := false }
        (connectEvents tid st3, [req], none)

/-- The `confirmBtn` click handler of `web/app.js` (richer variant). -/
def confirmClick (st : St) : St × List Request :=
  match st.taskId with
  | none => (st, [])
  | some tid =>
    let st1 := { st with confirmDisabled := true, statusText := "Continuing..." }
    if st1.waitingForUserInput then
      let reply := jsTrim st1.replyValue
      if reply = "" then
        ({ appendLog (t st1.lang "alert_enter_reply") st1 with confirmDisabled := false }, [])
      else
        ({ st1 with replyValue := "" }, [Request.confirm tid (some reply)])
    else
      (st1, [Request.confirm tid none])

/-- The `stopBtn` click handler of `web/app.js` (richer variant). -/
def stopClick (st : St) : St × List Request :=
  match st.taskId with
  | none => (st, [])
  | some tid =>
    ({ st with stopDisabled := true, statusText := "Stopping..." }, [Request.stop tid])

/-- `localStorage` modelled as a partial map from keys to stored strings. -/
def Store := String → Option String

/-- `localStorage.setItem(k, v)`. -/
def Store.setItem (s : Store) (k v : String) : Store :=
  fun q => if q = k then some v else s q

/-- The `MODEL_OPTIONS` table of `web/app.js`. -/
def MODEL_OPTIONS : String → List String
  | "gemini" => ["gemini-2.0-flash-lite", "gemini-2.5-flash-lite"]
  | "openai" => ["gpt-4.1-nano", "gpt-4.1-mini", "gpt-4.1"]
  | "ollama" => ["qwen3:1.7b", "functiongemma:latest"]
  | "anthropic" => ["claude-3-5-sonnet-latest", "claude-3-5-haiku-latest"]
  | _ => []

/-- The model `<select>` element: its option list and current value. -/
structure ModelSelect where
  options : List String
  value : String
deriving Repr, DecidableEq

/-- `setModelOptions(provider)` of `web/app.js`: rebuild the option list
from `MODEL_OPTIONS` (a single empty-valued placeholder option when the
provider has none); the DOM then selects the first option by default. -/
def setModelOptions (provider : String) : ModelSelect :=
  let opts := MODEL_OPTIONS provider
  { options := opts, value := opts.headD "" }

/-- Programmatic assignment `modelEl.value = v`: a value that is not among
the options deselects every option, leaving `value` empty. -/
def setSelectValue (sel : ModelSelect) (v : String) : ModelSelect :=
  if sel.options.contains v then { sel with value := v } else { sel with value := "" }

/-- The settings surface the provider/model handlers of `bindSettings`
operate on: the persistent store, the provider `<select>` value, and the
model `<select>`. -/
structure SettingsState where
  store : Store
  provider : String
  modelSel : ModelSelect

/-- The `providerEl` change handler of `bindSettings` (`web/app.js`):
persist the provider under `llm_provider`, rebuild the model options, and
restore the stored per-provider model when a non-empty one exists. -/
def providerChange (newProvider : String) (s : SettingsState) : SettingsState :=
  let store1 := s.store.setItem "llm_provider" newProvider
  let sel1 := setModelOptions newProvider
  let sel2 :=
    match store1 ("llm_model_" ++ newProvider) with
    | some m => if m = "" then sel1 else setSelectValue sel1 m
    | none => sel1
  { store := store1, provider := newProvider, modelSel := sel2 }

/-- The `modelEl` change handler of `bindSettings` (`web/app.js`), invoked
after the user selects option `v`: persist it under the per-provider key
`llm_model_<provider>` (the legacy `llm_model` key is never written). -/
def modelChange (v : String) (s : SettingsState) : SettingsState :=
  { s with
    modelSel := { s.modelSel with value := v }
    store := s.store.setItem ("llm_model_" ++ s.provider) v }

/-- The model-restoration part of `loadSettings` (`web/app.js`): the value
assigned to the model `<select>`, if any — the per-provider key when
non-empty, else the legacy `llm_model` key when non-empty. -/
def loadModelChoice (store : Store) (provider : String) : Option String :=
  let storedModel := (store ("llm_model_" ++ provider)).getD ""
  let legacyModel := (store "llm_model").getD ""
  let v := if storedModel = "" then legacyModel else storedModel
  if v = "" then none else some v

/-- A concrete controller state: the page as it looks after the initial
`resetUI()`, with English selected. -/
def sampleSt : St :=
  { logText := ""
    statusText := "Idle"
    confirmDisabled := true
    stopDisabled := true
    runDisabled := false
    waitingForUserInput := false
    replyHidden := true
    replyValue := ""
    taskId := none
    subs := []
    cur := none
    lang := "en" }

/-- A concrete controller state with one running task `T1` and its stream
subscription open. -/
def runningSt : St :=
  { sampleSt with
    taskId := some "T1"
    stopDisabled := false
    statusText := "Status: running"
    subs := [⟨"T1", false⟩]
    cur := some 0 }

/-- A concrete settings surface: empty store, provider `openai`. -/
def emptySettings : SettingsState :=
  { store := fun _ => none
    provider := "openai"
    modelSel := setModelOptions "openai" }

/-- Concrete form inputs with a non-empty prompt. -/
def sampleInputs : FormInputs :=
  { promptText := "open wikipedia"
    browserOnly := false
    searchEngine := "google"
    model := "gpt-4.1-mini"
    provider := "openai"
    safeMode := true }

end BrowserAgent

namespace BrowserAgent

theorem closeAt_length (l : List Sub) (i : Nat) : (closeAt l i).length = l.length := by
  induction l generalizing i with
  | nil => rfl
  | cons s rest ih =>
    cases i with
    | zero => rfl
    | succ n => simpa [closeAt] using ih n

theorem closeAt_get_self (l : List Sub) (i : Nat) :
    (closeAt l i).get? i = (l.get? i).map (fun s => { s with closed := true }) := by
  induction l generalizing i with
  | nil => rfl
  | cons s rest ih =>
    cases i with
    | zero => rfl
    | succ n => simpa [closeAt] using ih n

theorem closeAt_get_ne (l : List Sub) (i j : Nat) (h : j ≠ i) :
    (closeAt l i).get? j = l.get? j := by
  induction l generalizing i j with
  | nil => rfl
  | cons s rest ih =>
    cases i with
    | zero =>
      cases j with
      | zero => exact absurd rfl h
      | succ m => rfl
    | succ n =>
      cases j with
      | zero => rfl
      | succ m => simpa [closeAt] using ih n m (fun hc => h (by rw [hc]))

theorem closeAt_closeAt (l : List Sub) (i : Nat) :
    closeAt (closeAt l i) i = closeAt l i := by
  induction l generalizing i with
  | nil => rfl
  | cons s rest ih =>
    cases i with
    | zero => rfl
    | succ n => simp [closeAt, ih]

@[simp] theorem closeCur_confirmDisabled (st : St) :
    (closeCur st).confirmDisabled = st.confirmDisabled := by
  cases hc : st.cur <;> simp [closeCur, hc]

@[simp] theorem closeCur_stopDisabled (st : St) :
    (closeCur st).stopDisabled = st.stopDisabled := by
  cases hc : st.cur <;> simp [closeCur, hc]

@[simp] theorem closeCur_runDisabled (st : St) :
    (closeCur st).runDisabled = st.runDisabled := by
  cases hc : st.cur <;> simp [closeCur, hc]

@[simp] theorem closeCur_waiting (st : St) :
    (closeCur st).waitingForUserInput = st.waitingForUserInput := by
  cases hc : st.cur <;> simp [closeCur, hc]

@[simp] theorem closeCur_replyHidden (st : St) :
    (closeCur st).replyHidden = st.replyHidden := by
  cases hc : st.cur <;> simp [closeCur, hc]

@[simp] theorem closeCur_taskId (st : St) :
    (closeCur st).taskId = st.taskId := by
  cases hc : st.cur <;> simp [closeCur, hc]

@[simp] theorem closeCur_cur (st : St) : (closeCur st).cur = st.cur := by
  cases hc : st.cur <;> simp [closeCur, hc]

theorem closeCur_idem (st : St) : closeCur (closeCur st) = closeCur st := by
  cases hc : st.cur <;> simp [closeCur, hc, closeAt_closeAt]

theorem closeCur_closes_current (u : St) (i : Nat) (sub : Sub)
    (hc : (closeCur u).cur = some i) (hg : (closeCur u).subs.get? i = some sub) :
    sub.closed = true := by
  rw [closeCur_cur] at hc
  unfold closeCur at hg
  rw [hc] at hg
  simp only at hg
  rw [closeAt_get_self] at hg
  cases hu : u.subs.get? i with
  | none => rw [hu] at hg; cases hg
  | some a => rw [hu] at hg; cases hg; rfl

theorem terminal_contains {s : String}
    (h : s = "done" ∨ s = "stopped" ∨ s = "error") :
    (["done", "stopped", "error"] : List String).contains s = true := by
  rcases h with h | h | h <;> subst h <;> rfl

theorem handleEvent_status_terminal (p : Payload) (s : String) (st : St)
    (hs : p.status = some s) (hterm : s = "done" ∨ s = "stopped" ∨ s = "error") :
    handleEvent .status p st =
      closeCur { st with
        statusText := t st.lang "status_prefix" ++ " " ++ statusLabel st.lang s
        confirmDisabled := true
        stopDisabled := true
        runDisabled := false
        waitingForUserInput := false
        replyHidden := true } := by
  simp only [handleEvent, hs, Option.getD_some]
  rw [terminal_contains hterm]
  simp

end BrowserAgent

namespace BrowserAgent

/-- C1: For every sequence of stream events, after a `status` event whose
payload `status` field is one of `done`, `stopped` or `error` is processed,
the confirm and stop controls are disabled, the start control is enabled,
the awaiting-reply flag is cleared, the reply input is hidden, and the
stream subscription is closed — closing an already-closed subscription
being a no-op (closing the current subscription is idempotent). -/
theorem terminal_status_resets_controls
    (evs : List (EventKind × Payload)) (st : St) (p : Payload) (s : String)
    (hs : p.status = some s) (hterm : s = "done" ∨ s = "stopped" ∨ s = "error") :
    (handleEvent .status p (processEvents evs st)).confirmDisabled = true ∧
    (handleEvent .status p (processEvents evs st)).stopDisabled = true ∧
    (handleEvent .status p (processEvents evs st)).runDisabled = false ∧
    (handleEvent .status p (processEvents evs st)).waitingForUserInput = false ∧
    (handleEvent .status p (processEvents evs st)).replyHidden = true ∧
    (∀ i sub, (handleEvent .status p (processEvents evs st)).cur = some i →
        (handleEvent .status p (processEvents evs st)).subs.get? i = some sub →
        sub.closed = true) ∧
    (∀ u : St, closeCur (closeCur u) = closeCur u) := by
  rw [handleEvent_status_terminal p s _ hs hterm]
  refine ⟨by simp, by simp, by simp, by simp, by simp, ?_, closeCur_idem⟩
  intro i sub hc hg
  exact closeCur_closes_current _ i sub hc hg

/-- Witness for `terminal_status_resets_controls`: a log event followed by a
terminal `stopped` status on a running session. -/
theorem terminal_status_resets_controls_witness :
    (handleEvent .status { status := some "stopped" }
        (processEvents [(.log, { tool := some "navigate" })] runningSt)).confirmDisabled = true ∧
    (handleEvent .status { status := some "stopped" }
        (processEvents [(.log, { tool := some "navigate" })] runningSt)).stopDisabled = true ∧
    (handleEvent .status { status := some "stopped" }
        (processEvents [(.log, { tool := some "navigate" })] runningSt)).runDisabled = false ∧
    (handleEvent .status { status := some "stopped" }
        (processEvents [(.log, { tool := some "navigate" })] runningSt)).waitingForUserInput = false ∧
    (handleEvent .status { status := some "stopped" }
        (processEvents [(.log, { tool := some "navigate" })] runningSt)).replyHidden = true ∧
    (∀ i sub, (handleEvent .status { status := some "stopped" }
        (processEvents [(.log, { tool := some "navigate" })] runningSt)).cur = some i →
        (handleEvent .status { status := some "stopped" }
            (processEvents [(.log, { tool := some "navigate" })] runningSt)).subs.get? i = some sub →
        sub.closed = true) ∧
    (∀ u : St, closeCur (closeCur u) = closeCur u) :=
  terminal_status_resets_controls [(.log, { tool := some "navigate" })] runningSt
    { status := some "stopped" } "stopped" rfl (Or.inr (Or.inl rfl))

/-- C2 counterexample: every stream listener begins with
`JSON.parse(event.data)` outside any `try` followed by `payload.data`, so
event data that is not valid JSON makes the handler throw at the parse (and
the valid JSON text `null` makes it throw at the `payload.data` access) —
it is not processed as an all-absent payload, refuting the claim that a
malformed payload never causes the event handler to throw. -/
theorem unparsable_event_data_throws :
    ¬ ∀ (k : EventKind) (d : RawData) (st : St),
        ∃ st2, handleRaw k d st = Except.ok st2 := by
  intro h
  obtain ⟨st2, h2⟩ := h .log .invalid sampleSt
  simp [handleRaw] at h2

/-- C2 amended: for every event whose data parses as JSON to a value other
than `null`, a malformed payload (missing or non-object `data` field,
missing payload fields) never makes the listener throw and is processed as
all-absent fields — for a `log` event producing the blank-fragment line
`[]`; event data that is not valid JSON throws at `JSON.parse`, and the
valid JSON `null` throws at the `payload.data` access, both before any
state change. -/
theorem parsed_payload_never_throws (k : EventKind) (p : Payload) (st : St) :
    handleRaw k (.parsed p) st = Except.ok (handleEvent k p st) ∧
    (handleEvent .log { } st).logText = st.logText ++ "[]" ++ "\n" ∧
    handleRaw k .invalid st = Except.error () ∧
    handleRaw k .nullEnvelope st = Except.error () := by
  refine ⟨rfl, ?_, rfl, rfl⟩
  have h : logLine st.lang { } = "[]" := rfl
  simp [handleEvent, appendLog, h]

/-- C4 counterexample: after a terminal `done` status event on a running
session with task identifier `T1`, the task identifier is still `T1` — the
status listener never clears `taskId`, refuting the claim that the
identifier is reset to unset. -/
theorem terminal_status_retains_task_id :
    (handleEvent .status { status := some "done" } runningSt).taskId = some "T1" ∧
    some "T1" ≠ (none : Option String) := by
  constructor
  · rfl
  · simp

/-- C4 amended: whenever the lifecycle status becomes terminal (`done`,
`stopped` or `error` via a `status` event), the stream subscription is
closed, but the task identifier is retained unchanged (it is only
overwritten by the next start). -/
theorem terminal_status_closes_stream_retains_id (st : St) (p : Payload) (s : String)
    (hs : p.status = some s) (hterm : s = "done" ∨ s = "stopped" ∨ s = "error") :
    (handleEvent .status p st).taskId = st.taskId ∧
    ∀ i sub, (handleEvent .status p st).cur = some i →
      (handleEvent .status p st).subs.get? i = some sub → sub.closed = true := by
  rw [handleEvent_status_terminal p s st hs hterm]
  refine ⟨by simp, ?_⟩
  intro i sub hc hg
  exact closeCur_closes_current _ i sub hc hg

/-- Witness for `terminal_status_closes_stream_retains_id` on a running
session receiving a terminal `error` status. -/
theorem terminal_status_closes_stream_retains_id_witness :
    (handleEvent .status { status := some "error" } runningSt).taskId = runningSt.taskId ∧
    ∀ i sub, (handleEvent .status { status := some "error" } runningSt).cur = some i →
      (handleEvent .status { status := some "error" } runningSt).subs.get? i = some sub →
      sub.closed = true :=
  terminal_status_closes_stream_retains_id runningSt { status := some "error" } "error" rfl
    (Or.inr (Or.inr rfl))

end BrowserAgent

namespace BrowserAgent

theorem str_empty_append (s : String) : "" ++ s = s := by
  obtain ⟨d⟩ := s
  rfl

theorem get_some_lt_length {α : Type} (l : List α) (n : Nat) (a : α)
    (h : l.get? n = some a) : n < l.length := by
  induction l generalizing n with
  | nil => cases h
  | cons x xs ih =>
    cases n with
    | zero => simp
    | succ m => simpa using ih m (by simpa using h)

theorem get_append_left {α : Type} (l l2 : List α) (n : Nat)
    (h : n < l.length) : (l ++ l2).get? n = l.get? n := by
  induction l generalizing n with
  | nil => cases h
  | cons x xs ih =>
    cases n with
    | zero => rfl
    | succ m => simpa using ih m (by simpa using h)

theorem get_append_length {α : Type} (l : List α) (a : α) :
    (l ++ [a]).get? l.length = some a := by
  induction l with
  | nil => rfl
  | cons x xs ih => exact ih

theorem openSubs_closeAt (l : List Sub) (i : Nat) (sub : Sub)
    (h : l.get? i = some sub) (ho : sub.closed = false) :
    openSubs (closeAt l i) + 1 = openSubs l := by
  induction l generalizing i with
  | nil => cases h
  | cons s rest ih =>
    cases i with
    | zero =>
      cases h
      simp [closeAt, openSubs, List.filter_cons, ho]
    | succ n =>
      have hrec := ih n (by simpa using h)
      simp only [openSubs, closeAt, List.filter_cons] at hrec ⊢
      cases hs : s.closed <;> simp [hs] <;> omega

end BrowserAgent

namespace BrowserAgent

theorem openSubs_append_open (l : List Sub) (tsk : String) :
    openSubs (l ++ [⟨tsk, false⟩]) = openSubs l + 1 := by
  simp [openSubs, List.filter_append]

theorem connectEvents_spec (id : String) (u : St) (i : Nat) (hcur : u.cur = some i) :
    connectEvents id u =
      { u with subs := closeAt u.subs i ++ [⟨id, false⟩], cur := some u.subs.length } := by
  simp [connectEvents, closeCur, hcur, closeAt_length]

/-- C6: for every prompt whose trimmed value is empty, the start handler
issues no network request, shows a user-facing alert, and leaves the entire
controller state (including the lifecycle status display) unchanged. -/
theorem empty_prompt_is_local_noop (fi : FormInputs) (resp : StartResponse) (st : St)
    (h : jsTrim fi.promptText = "") :
    runClick fi resp st = (st, [], some (t st.lang "alert_enter_task")) := by
  simp [runClick, h]

/-- Witness for `empty_prompt_is_local_noop`: a whitespace-only prompt. -/
theorem empty_prompt_is_local_noop_witness :
    runClick { sampleInputs with promptText := "   " } (.ok "T9") sampleSt =
      (sampleSt, [], some (t sampleSt.lang "alert_enter_task")) :=
  empty_prompt_is_local_noop { sampleInputs with promptText := "   " } (.ok "T9") sampleSt rfl

/-- C5: when the awaiting-reply flag is set on an active task, confirm with
empty (trimmed) reply text issues zero outbound confirm requests, logs a
message and re-enables the confirm control without touching the reply
field; with non-empty reply text it issues exactly one confirm request
carrying `response` = the trimmed reply, and clears the reply field on that
submission only. -/
theorem confirm_reply_gate (st : St) (tid : String)
    (htid : st.taskId = some tid) (hwait : st.waitingForUserInput = true) :
    (jsTrim st.replyValue = "" →
      (confirmClick st).2 = [] ∧
      (confirmClick st).1.logText = st.logText ++ t st.lang "alert_enter_reply" ++ "\n" ∧
      (confirmClick st).1.confirmDisabled = false ∧
      (confirmClick st).1.replyValue = st.replyValue) ∧
    (jsTrim st.replyValue ≠ "" →
      (confirmClick st).2 = [Request.confirm tid (some (jsTrim st.replyValue))] ∧
      (confirmClick st).1.replyValue = "") := by
  constructor <;> intro h <;> simp [confirmClick, htid, hwait, h, appendLog]

/-- Witness for `confirm_reply_gate`: a session awaiting user input with a
non-empty reply typed. -/
theorem confirm_reply_gate_witness :
    (jsTrim ({ runningSt with waitingForUserInput := true, replyValue := "hello" } : St).replyValue = "" →
      (confirmClick { runningSt with waitingForUserInput := true, replyValue := "hello" }).2 = [] ∧
      (confirmClick { runningSt with waitingForUserInput := true, replyValue := "hello" }).1.logText =
        ({ runningSt with waitingForUserInput := true, replyValue := "hello" } : St).logText ++
          t ({ runningSt with waitingForUserInput := true, replyValue := "hello" } : St).lang
            "alert_enter_reply" ++ "\n" ∧
      (confirmClick { runningSt with waitingForUserInput := true, replyValue := "hello" }).1.confirmDisabled = false ∧
      (confirmClick { runningSt with waitingForUserInput := true, replyValue := "hello" }).1.replyValue =
        ({ runningSt with waitingForUserInput := true, replyValue := "hello" } : St).replyValue) ∧
    (jsTrim ({ runningSt with waitingForUserInput := true, replyValue := "hello" } : St).replyValue ≠ "" →
      (confirmClick { runningSt with waitingForUserInput := true, replyValue := "hello" }).2 =
        [Request.confirm "T1"
          (some (jsTrim ({ runningSt with waitingForUserInput := true, replyValue := "hello" } : St).replyValue))] ∧
      (confirmClick { runningSt with waitingForUserInput := true, replyValue := "hello" }).1.replyValue = "") :=
  confirm_reply_gate { runningSt with waitingForUserInput := true, replyValue := "hello" } "T1" rfl rfl

/-- C10: if a start attempt is rejected while a previous stream subscription
is open, the prior subscription is left referenced and open (neither the
error branch nor the initial `resetUI` closes it), the freshly cleared log
holds only the failure line, the status display shows the error label,
start is re-enabled, the task identifier is untouched, and a further log
event still appends to that freshly cleared log. -/
theorem failed_start_leaves_prior_stream_open
    (fi : FormInputs) (detail : Option String) (stext : String) (st : St)
    (i : Nat) (sub : Sub)
    (hp : jsTrim fi.promptText ≠ "")
    (hcur : st.cur = some i)
    (hsub : st.subs.get? i = some sub)
    (hopen : sub.closed = false) :
    (runClick fi (.err detail stext) st).1.cur = some i ∧
    (runClick fi (.err detail stext) st).1.subs = st.subs ∧
    (runClick fi (.err detail stext) st).1.subs.get? i = some sub ∧
    sub.closed = false ∧
    (runClick fi (.err detail stext) st).1.logText =
      t st.lang "log_failed_start" ++ ": " ++ detail.getD stext ++ "\n" ∧
    (runClick fi (.err detail stext) st).1.statusText =
      t st.lang "status_prefix" ++ " " ++ t st.lang "status_error" ∧
    (runClick fi (.err detail stext) st).1.runDisabled = false ∧
    (runClick fi (.err detail stext) st).1.taskId = st.taskId ∧
    ∀ q : Payload, (handleEvent .log q (runClick fi (.err detail stext) st).1).logText =
      (runClick fi (.err detail stext) st).1.logText ++
        logLine (runClick fi (.err detail stext) st).1.lang q ++ "\n" := by
  simp only [runClick]
  rw [if_neg hp]
  refine ⟨hcur, rfl, hsub, hopen, ?_, rfl, rfl, rfl, fun q => rfl⟩
  show "" ++ (t st.lang "log_failed_start" ++ ": " ++ detail.getD stext) ++ "\n" = _
  rw [str_empty_append]

/-- Witness for `failed_start_leaves_prior_stream_open`: a rejected start on
a session whose `T1` stream is still open. -/
theorem failed_start_leaves_prior_stream_open_witness :
    (runClick sampleInputs (.err (some "boom") "Bad Request") runningSt).1.cur = some 0 ∧
    (runClick sampleInputs (.err (some "boom") "Bad Request") runningSt).1.subs = runningSt.subs ∧
    (runClick sampleInputs (.err (some "boom") "Bad Request") runningSt).1.subs.get? 0 =
      some ⟨"T1", false⟩ ∧
    (⟨"T1", false⟩ : Sub).closed = false ∧
    (runClick sampleInputs (.err (some "boom") "Bad Request") runningSt).1.logText =
      t runningSt.lang "log_failed_start" ++ ": " ++ (some "boom").getD "Bad Request" ++ "\n" ∧
    (runClick sampleInputs (.err (some "boom") "Bad Request") runningSt).1.statusText =
      t runningSt.lang "status_prefix" ++ " " ++ t runningSt.lang "status_error" ∧
    (runClick sampleInputs (.err (some "boom") "Bad Request") runningSt).1.runDisabled = false ∧
    (runClick sampleInputs (.err (some "boom") "Bad Request") runningSt).1.taskId = runningSt.taskId ∧
    ∀ q : Payload,
      (handleEvent .log q (runClick sampleInputs (.err (some "boom") "Bad Request") runningSt).1).logText =
        (runClick sampleInputs (.err (some "boom") "Bad Request") runningSt).1.logText ++
          logLine (runClick sampleInputs (.err (some "boom") "Bad Request") runningSt).1.lang q ++ "\n" :=
  failed_start_leaves_prior_stream_open sampleInputs (some "boom") "Bad Request" runningSt 0
    ⟨"T1", false⟩ (by decide) rfl rfl rfl

end BrowserAgent

namespace BrowserAgent

/-- C3 counterexample: on a successful start the handler stores the id,
enables stop and connects the stream, but never sets a `running` status —
the status display still shows the `starting` label set before the request,
refuting the claim's `sets the lifecycle status to running` conjunct. -/
theorem start_success_does_not_set_running_label :
    (runClick sampleInputs (.ok "T2") runningSt).1.statusText = "Starting task..." ∧
    "Starting task..." ≠ statusLabel "en" "running" ∧
    "Starting task..." ≠ t "en" "status_prefix" ++ " " ++ statusLabel "en" "running" := by
  refine ⟨by decide, by decide, by decide⟩

/-- C3 amended: when start receives a success response, it stores the
returned task identifier, enables the stop control, and opens exactly one
stream subscription for that identifier — closing the previously open
subscription first, so exactly one subscription is open afterward; the
status display keeps the `starting` label (no `running` status is set by
the start handler itself). -/
theorem start_success_stores_id_single_subscription
    (fi : FormInputs) (tid : String) (st : St) (i : Nat) (sub : Sub)
    (hp : jsTrim fi.promptText ≠ "")
    (hcur : st.cur = some i)
    (hsub : st.subs.get? i = some sub)
    (hopen : sub.closed = false)
    (honly : openCount st = 1) :
    (runClick fi (.ok tid) st).1.taskId = some tid ∧
    (runClick fi (.ok tid) st).1.stopDisabled = false ∧
    (runClick fi (.ok tid) st).1.cur = some st.subs.length ∧
    (runClick fi (.ok tid) st).1.subs.get? st.subs.length = some ⟨tid, false⟩ ∧
    (runClick fi (.ok tid) st).1.subs.get? i = some { sub with closed := true } ∧
    openCount (runClick fi (.ok tid) st).1 = 1 ∧
    (runClick fi (.ok tid) st).1.statusText = t st.lang "status_starting" ∧
    (runClick fi (.ok tid) st).2.1 = [Request.createTask
      { prompt := jsTrim fi.promptText
        browser_only := fi.browserOnly
        search_engine := fi.searchEngine
        model := fi.model
        provider := fi.provider
        safe_mode := fi.safeMode }] := by
  have hlt : i < st.subs.length := get_some_lt_length _ _ _ hsub
  simp only [runClick, connectEvents, closeCur, resetUI]
  rw [if_neg hp]
  rw [hcur]
  refine ⟨rfl, rfl, by simp [closeAt_length], ?_, ?_, ?_, rfl, rfl⟩
  · show (closeAt st.subs i ++ [(⟨tid, false⟩ : Sub)]).get? st.subs.length = some (⟨tid, false⟩ : Sub)
    rw [← closeAt_length st.subs i]
    exact get_append_length _ _
  · show (closeAt st.subs i ++ [(⟨tid, false⟩ : Sub)]).get? i = some { sub with closed := true }
    rw [get_append_left _ _ i (by rw [closeAt_length]; exact hlt), closeAt_get_self, hsub]
    rfl
  · show openSubs (closeAt st.subs i ++ [(⟨tid, false⟩ : Sub)]) = 1
    rw [openSubs_append_open]
    have h2 := openSubs_closeAt st.subs i sub hsub hopen
    unfold openCount at honly
    omega

/-- Witness for `start_success_stores_id_single_subscription`: starting
task `T2` while the `T1` subscription is still open. -/
theorem start_success_stores_id_single_subscription_witness :
    (runClick sampleInputs (.ok "T2") runningSt).1.taskId = some "T2" ∧
    (runClick sampleInputs (.ok "T2") runningSt).1.stopDisabled = false ∧
    (runClick sampleInputs (.ok "T2") runningSt).1.cur = some runningSt.subs.length ∧
    (runClick sampleInputs (.ok "T2") runningSt).1.subs.get? runningSt.subs.length =
      some ⟨"T2", false⟩ ∧
    (runClick sampleInputs (.ok "T2") runningSt).1.subs.get? 0 =
      some { (⟨"T1", false⟩ : Sub) with closed := true } ∧
    openCount (runClick sampleInputs (.ok "T2") runningSt).1 = 1 ∧
    (runClick sampleInputs (.ok "T2") runningSt).1.statusText =
      t runningSt.lang "status_starting" ∧
    (runClick sampleInputs (.ok "T2") runningSt).2.1 = [Request.createTask
      { prompt := jsTrim sampleInputs.promptText
        browser_only := sampleInputs.browserOnly
        search_engine := sampleInputs.searchEngine
        model := sampleInputs.model
        provider := sampleInputs.provider
        safe_mode := sampleInputs.safeMode }] :=
  start_success_stores_id_single_subscription sampleInputs "T2" runningSt 0
    ⟨"T1", false⟩ (by decide) rfl rfl rfl (by decide)

end BrowserAgent

namespace BrowserAgent

/-- C7: the derived log line maps the tool through the localized
action-label table; `duration_ms` is formatted as seconds with one decimal
and `s` when at least 1000, as `<n>ms` below 1000, and as an empty fragment
when absent or not a number; 1200 yields `1.2s`; error text is appended
when present. -/
theorem log_line_formatting :
    formatDuration none = "" ∧
    (∀ n : Nat, n < 1000 → formatDuration (some n) = toString n ++ "ms") ∧
    (∀ n : Nat, 1000 ≤ n → formatDuration (some n) =
      toString ((n * 10 + 500) / 1000 / 10) ++ "." ++
        toString ((n * 10 + 500) / 1000 % 10) ++ "s") ∧
    formatDuration (some 1200) = "1.2s" ∧
    actionLabel "en" "navigate" = "navigating" ∧
    actionLabel "ru" "navigate" = "перехожу" ∧
    logLine "en" { step := some "1", tool := some "navigate", status := some "ok", duration_ms := some 1200 } = "[1] navigating navigate ok (1.2s)" ∧
    logLine "en" { tool := some "navigate", status := some "fail", error := some "boom" } =
      "[] navigating navigate fail | error: boom" ∧
    logLine "en" { tool := some "navigate", status := some "fail" } =
      "[] navigating navigate fail" := by
  refine ⟨rfl, ?_, ?_, by decide, by decide, by decide, by decide, by decide, by decide⟩
  · intro n h
    simp only [formatDuration]
    rw [if_neg (by omega)]
  · intro n h
    simp only [formatDuration]
    rw [if_pos h]

/-- Witness for `log_line_formatting` at durations 999 and 65000. -/
theorem log_line_formatting_witness :
    formatDuration (some 999) = toString 999 ++ "ms" ∧
    formatDuration (some 65000) = toString ((65000 * 10 + 500) / 1000 / 10) ++ "." ++
      toString ((65000 * 10 + 500) / 1000 % 10) ++ "s" :=
  ⟨log_line_formatting.2.1 999 (by decide), log_line_formatting.2.2.1 65000 (by decide)⟩

theorem lookup_val_ne_empty {l : List (String × String)} {k v : String}
    (hall : ∀ p ∈ l, p.2 ≠ "") (h : List.lookup k l = some v) : v ≠ "" := by
  induction l with
  | nil => cases h
  | cons p rest ih =>
    obtain ⟨pk, pv⟩ := p
    rw [List.lookup] at h
    cases hbeq : (k == pk) <;> rw [hbeq] at h
    · exact ih (fun q hq => hall q (List.mem_cons_of_mem _ hq)) h
    · cases h
      exact hall _ (List.mem_cons_self _ _)

theorem enTable_ne_empty (k v : String) (h : enTable k = some v) : v ≠ "" :=
  lookup_val_ne_empty (by decide) h

theorem ruTable_ne_empty (k v : String) (h : ruTable k = some v) : v ≠ "" :=
  lookup_val_ne_empty (by decide) h

theorem I18N_cases (lang : String) (tbl : String → Option String)
    (h : I18N lang = some tbl) : tbl = enTable ∨ tbl = ruTable := by
  unfold I18N at h
  split at h
  · cases h; exact Or.inl rfl
  · cases h; exact Or.inr rfl
  · cases h

/-- C8: localization resolution returns the language table entry when it
exists, falling back to the English table entry, falling back to the
literal key; resolution is deterministic. -/
theorem localization_resolution :
    (∀ lang key tbl v, I18N lang = some tbl → tbl key = some v → t lang key = v) ∧
    (∀ lang key v, ((I18N lang).bind fun tbl => tbl key) = none →
      enTable key = some v → t lang key = v) ∧
    (∀ lang key, ((I18N lang).bind fun tbl => tbl key) = none →
      enTable key = none → t lang key = key) ∧
    (∀ lang key, t lang key = t lang key) := by
  refine ⟨?_, ?_, ?_, fun _ _ => rfl⟩
  · intro lang key tbl v h1 h2
    have hv : v ≠ "" := by
      rcases I18N_cases lang tbl h1 with h | h <;> subst h
      · exact enTable_ne_empty key v h2
      · exact ruTable_ne_empty key v h2
    unfold t
    rw [h1]
    simp [jsOrStr, h2, hv]
  · intro lang key v h1 h2
    have hv : v ≠ "" := enTable_ne_empty key v h2
    unfold t
    rw [h1]
    simp [jsOrStr, h2, hv]
  · intro lang key h1 h2
    unfold t
    rw [h1]
    simp [jsOrStr, h2]

/-- Witness for `localization_resolution`: a Russian hit, an unknown
language falling back to English, and an unknown key falling back to
itself. -/
theorem localization_resolution_witness :
    t "ru" "status_done" = "готово" ∧
    t "de" "label_model" = "Model" ∧
    t "en" "unknown_key_xyz" = "unknown_key_xyz" :=
  ⟨localization_resolution.1 "ru" "status_done" ruTable "готово" rfl rfl,
   localization_resolution.2.1 "de" "label_model" "Model" rfl rfl,
   localization_resolution.2.2.1 "en" "unknown_key_xyz" rfl rfl⟩

theorem model_key_ne_legacy (p : String) : "llm_model_" ++ p ≠ "llm_model" := by
  intro h
  have h2 := congrArg String.length h
  rw [String.length_append] at h2
  have h3 : ("llm_model_" : String).length = 10 := rfl
  have h4 : ("llm_model" : String).length = 9 := rfl
  omega

theorem model_key_ne_provider (p : String) : "llm_model_" ++ p ≠ "llm_provider" := by
  obtain ⟨d⟩ := p
  intro h
  have h2 : (("llm_model_" : String) ++ ⟨d⟩).data.get? 4 =
      ("llm_provider" : String).data.get? 4 :=
    congrArg (fun s : String => s.data.get? 4) h
  rw [show (("llm_model_" : String) ++ ⟨d⟩).data.get? 4 = some 'm' from rfl] at h2
  exact absurd h2 (by decide)

theorem model_key_inj (p q : String) (h : "llm_model_" ++ p = "llm_model_" ++ q) :
    p = q := by
  obtain ⟨dp⟩ := p
  obtain ⟨dq⟩ := q
  have h2 : ("llm_model_" : String).data ++ dp = ("llm_model_" : String).data ++ dq :=
    congrArg String.data h
  exact congrArg String.mk (List.append_cancel_left h2)

theorem mem_MODEL_OPTIONS_ne_empty (p m : String) (h : m ∈ MODEL_OPTIONS p) : m ≠ "" := by
  unfold MODEL_OPTIONS at h
  split at h <;> first
    | exact (List.not_mem_nil _ h).elim
    | (fin_cases h <;> decide)

/-- C9: model changes are persisted only under the per-provider key
`llm_model_<provider>`; the legacy `llm_model` key is never written and is
read only as a fallback; switching provider away and back restores the
stored model without affecting the other provider's stored choice. -/
theorem per_provider_model_persistence :
    (∀ (s : SettingsState) (v k : String), k ≠ "llm_model_" ++ s.provider →
      (modelChange v s).store k = s.store k) ∧
    (∀ (s : SettingsState) (v : String),
      (modelChange v s).store "llm_model" = s.store "llm_model") ∧
    (∀ (store : Store) (p m : String), store ("llm_model_" ++ p) = some m → m ≠ "" →
      loadModelChoice store p = some m) ∧
    (∀ (s : SettingsState) (p q m : String), s.provider = p → m ∈ MODEL_OPTIONS p → p ≠ q →
      (providerChange p (providerChange q (modelChange m s))).modelSel.value = m ∧
      (providerChange p (providerChange q (modelChange m s))).provider = p ∧
      (providerChange p (providerChange q (modelChange m s))).store ("llm_model_" ++ p) = some m ∧
      (providerChange p (providerChange q (modelChange m s))).store ("llm_model_" ++ q) =
        s.store ("llm_model_" ++ q)) := by
  refine ⟨?_, ?_, ?_, ?_⟩
  · intro s v k hk
    simp [modelChange, Store.setItem, hk]
  · intro s v
    simp [modelChange, Store.setItem, Ne.symm (model_key_ne_legacy s.provider)]
  · intro store p m h hm
    simp [loadModelChoice, h, hm]
  · intro s p q m hsp hm hpq
    subst hsp
    have hm' : m ≠ "" := mem_MODEL_OPTIONS_ne_empty s.provider m hm
    have h1 : ("llm_model_" ++ s.provider) ≠ "llm_provider" :=
      model_key_ne_provider s.provider
    have h2 : ("llm_model_" ++ q) ≠ "llm_provider" := model_key_ne_provider q
    have h3 : ("llm_model_" ++ q) ≠ ("llm_model_" ++ s.provider) :=
      fun hc => hpq (model_key_inj _ _ hc).symm
    have hcont : (MODEL_OPTIONS s.provider).contains m = true :=
      List.elem_eq_true_of_mem hm
    simp [providerChange, modelChange, Store.setItem, setModelOptions, setSelectValue,
      h1, h2, h3, hm', hcont, hm]

/-- Witness for `per_provider_model_persistence`: the spec scenario —
`gpt-4.1-mini` under `openai`, switch to `anthropic` and back. -/
theorem per_provider_model_persistence_witness :
    (providerChange "openai" (providerChange "anthropic"
      (modelChange "gpt-4.1-mini" emptySettings))).modelSel.value = "gpt-4.1-mini" ∧
    (providerChange "openai" (providerChange "anthropic"
      (modelChange "gpt-4.1-mini" emptySettings))).provider = "openai" ∧
    (providerChange "openai" (providerChange "anthropic"
      (modelChange "gpt-4.1-mini" emptySettings))).store ("llm_model_" ++ "openai") =
      some "gpt-4.1-mini" ∧
    (providerChange "openai" (providerChange "anthropic"
      (modelChange "gpt-4.1-mini" emptySettings))).store ("llm_model_" ++ "anthropic") =
      emptySettings.store ("llm_model_" ++ "anthropic") :=
  per_provider_model_persistence.2.2.2 emptySettings
    "openai" "anthropic" "gpt-4.1-mini" rfl (by decide) (by decide)
end BrowserAgent
